import Mathlib

/-
Verification of the SpeedZone measurement engine (src/app/page.tsx and the
API route handlers) against its natural-language specification.

Numbers that the TypeScript code manipulates as IEEE doubles are modelled
as exact rationals (or reals where a square root is involved); list-shaped
data keeps the order the code produces it in.
-/

namespace SpeedZone

/-! ## measurePing (src/app/page.tsx, lines 170-210)

A ping run is modelled by the matrix of round-trip latencies it would
observe: one inner list per round, in issue order (Promise.all preserves
the order of the batch array).  The code pushes results.slice(1) of every
round into the filtered list. -/

/-- Latency matrix of a ping run: rounds times concurrency samples, where
latency r c is the round-trip time of request c of round r in issue order. -/
def pingRounds (rounds concurrency : ℕ) (latency : ℕ → ℕ → ℝ) : List (List ℝ) :=
  (List.range rounds).map (fun r => (List.range concurrency).map (latency r))

/-- Retained samples: the code runs filtered.push(...results.slice(1)) after
every round, so the first result of each round is discarded. -/
def pingFilter (roundsList : List (List ℝ)) : List ℝ :=
  roundsList.foldl (fun acc results => acc ++ results.drop 1) []

/-- Total sample count reported to onProgress: rounds * concurrency. -/
def pingTotalSamples (rounds concurrency : ℕ) : ℕ :=
  rounds * concurrency

/-- Sum of the filtered samples, as the code computes it:
filtered.reduce((acc, val) => acc + val, 0). -/
def pingSum (l : List ℝ) : ℝ :=
  l.foldl (fun acc val => acc + val) 0

/-- Average of the filtered samples: sum / filtered.length. -/
noncomputable def pingAverage (l : List ℝ) : ℝ :=
  pingSum l / l.length

/-- Variance as the code computes it:
filtered.reduce((acc, val) => acc + (val - average) ** 2, 0) / filtered.length. -/
noncomputable def pingVariance (l : List ℝ) : ℝ :=
  (l.foldl (fun acc val => acc + (val - pingAverage l) ^ 2) 0) / l.length

/-- Jitter as the code computes it: Math.sqrt(Math.max(variance, 0)). -/
noncomputable def pingJitter (l : List ℝ) : ℝ :=
  Real.sqrt (max (pingVariance l) 0)

/-- Result record of measurePing. -/
structure PingResult where
  average : ℝ
  jitter : ℝ
  samples : List ℝ

/-- Value returned by measurePing on a given latency matrix: the zero result
when no samples were retained (the code tests !filtered.length), otherwise
the average/jitter/samples triple over the retained samples. -/
noncomputable def measurePing (roundsList : List (List ℝ)) : PingResult :=
  match pingFilter roundsList with
  | [] => { average := 0, jitter := 0, samples := [] }
  | _ :: _ =>
    { average := pingAverage (pingFilter roundsList)
      jitter := pingJitter (pingFilter roundsList)
      samples := pingFilter roundsList }

/-- Population standard deviation, written from the words of the spec:
square root of the mean squared deviation from the arithmetic mean.
This definition follows the spec, to be compared with the code's pingJitter. -/
noncomputable def specPopulationStdDev (l : List ℝ) : ℝ :=
  Real.sqrt (((l.map (fun x => (x - l.sum / l.length) ^ 2)).sum) / l.length)

/-! ## Throughput finalization (src/app/page.tsx, lines 264, 370-374, 390, 583-587)

Both measureDownload and measureUpload clamp the requested duration, take
the wall-clock elapsed time to be at least that duration, and compute the
final megabits-per-second figure from the shared byte counter. -/

/-- Effective duration: Math.max(Math.floor(durationMs), 1_000), identical in
measureDownload (line 264) and measureUpload (line 390). -/
def clampDuration (durationMs : ℚ) : ℚ :=
  max (⌊durationMs⌋ : ℚ) 1000

/-- Result record of measureDownload and measureUpload. -/
structure ThroughputResult where
  mbps : ℚ
  bytes : ℕ
  seconds : ℚ
  deriving Repr, DecidableEq

/-- Final result computation shared by measureDownload (lines 370-374) and
measureUpload (lines 583-587): elapsedMs = Math.max(now - start, duration),
seconds = elapsedMs / 1000, mbps = seconds > 0 ? bytes * 8 / 1e6 / seconds : 0.
rawElapsedMs stands for performance.now() - start at completion time. -/
def finishThroughput (totalBytes : ℕ) (rawElapsedMs duration : ℚ) : ThroughputResult :=
  let elapsedMs := max rawElapsedMs duration
  let seconds := elapsedMs / 1000
  { mbps := if 0 < seconds then (totalBytes * 8 : ℚ) / 1000000 / seconds else 0
    bytes := totalBytes
    seconds := seconds }

/-- Completed result of measureDownload for a given requested duration,
observed wall-clock elapsed time and accumulated byte counter. -/
def measureDownloadResult (durationMs rawElapsedMs : ℚ) (totalBytes : ℕ) : ThroughputResult :=
  finishThroughput totalBytes rawElapsedMs (clampDuration durationMs)

/-- Completed result of measureUpload, same final computation as the
download side but over the totalUploaded counter. -/
def measureUploadResult (durationMs rawElapsedMs : ℚ) (totalUploaded : ℕ) : ThroughputResult :=
  finishThroughput totalUploaded rawElapsedMs (clampDuration durationMs)

/-! ## JavaScript number semantics needed by the size clamps
(src/app/page.tsx, lines 265-268 and 391-394)

The clamp expressions combine Math.floor, the truthiness-based or-operator
and Math.min/Math.max, so NaN and the infinities are observable.  JSNum
models an IEEE double as an exact rational plus the three special values. -/

/-- JavaScript number: a finite value (exact rational), NaN, or an infinity. -/
inductive JSNum where
  | num (q : ℚ)
  | nan
  | inf
  | negInf
  deriving Repr, DecidableEq

/-- Truthiness of a number: 0 and NaN are falsy, everything else truthy. -/
def JSNum.truthy : JSNum → Bool
  | .num q => q != 0
  | .nan => false
  | .inf => true
  | .negInf => true

/-- Math.floor: floors finite values, maps NaN and the infinities to themselves. -/
def JSNum.jsFloor : JSNum → JSNum
  | .num q => .num (⌊q⌋ : ℚ)
  | .nan => .nan
  | .inf => .inf
  | .negInf => .negInf

/-- The or-operator a || b: b exactly when a is falsy. -/
def JSNum.orElse (a b : JSNum) : JSNum :=
  if a.truthy then a else b

/-- Math.max of two numbers: NaN-propagating, infinity-respecting. -/
def JSNum.jsMax : JSNum → JSNum → JSNum
  | .nan, _ => .nan
  | _, .nan => .nan
  | .inf, _ => .inf
  | _, .inf => .inf
  | .negInf, b => b
  | a, .negInf => a
  | .num a, .num b => .num (max a b)

/-- Math.min of two numbers: NaN-propagating, infinity-respecting. -/
def JSNum.jsMin : JSNum → JSNum → JSNum
  | .nan, _ => .nan
  | _, .nan => .nan
  | .negInf, _ => .negInf
  | _, .negInf => .negInf
  | .inf, b => b
  | a, .inf => a
  | .num a, .num b => .num (min a b)

/-- Chunk size used by measureDownload (lines 265-268):
Math.min(Math.max(Math.floor(chunkSize ?? 0) || 256 * 1024, 16 * 1024), 1024 * 1024).
The argument is an Option to model an absent (undefined) chunkSize, which
the nullish-coalescing operator turns into 0. -/
def safeChunkSize (chunkSize : Option JSNum) : JSNum :=
  (((chunkSize.getD (.num 0)).jsFloor.orElse (.num (256 * 1024))).jsMax
      (.num (16 * 1024))).jsMin (.num (1024 * 1024))

/-- Payload size used by measureUpload (lines 391-394):
Math.min(Math.max(Math.floor(payloadBytes ?? 0) || 512 * 1024, 128 * 1024), 2 * 1024 * 1024). -/
def uploadChunkBytes (payloadBytes : Option JSNum) : JSNum :=
  (((payloadBytes.getD (.num 0)).jsFloor.orElse (.num (512 * 1024))).jsMax
      (.num (128 * 1024))).jsMin (.num (2 * 1024 * 1024))

/-! ## measureUpload worker scheduling (src/app/page.tsx, lines 377-566)

The variables shared by the worker loops: the stop flag, the uploaded byte
counter, and preferRemoteUpload, which is declared in the scope of
measureUpload itself (line 401), outside runWorker.  Each worker has its
own settled flag (line 428, inside runWorker).  A send targets the remote
or the local endpoint. -/

/-- Endpoint a dispatchUpload call targets. -/
inductive UploadMode where
  | remote
  | local
  deriving Repr, DecidableEq

/-- Shared state of an upload run, with the per-worker settled flags kept as
a function from worker index to Bool.  preferRemoteUpload is a single field
because the source declares it once per measureUpload call, not per worker. -/
structure UploadRunState where
  preferRemoteUpload : Bool
  stop : Bool
  settled : ℕ → Bool

/-- Endpoint that worker w targets when its scheduleNext runs (lines 442-448):
none when the worker completes instead of dispatching (settled or stop),
otherwise remote or local according to the shared preferRemoteUpload flag. -/
def scheduleNextTarget (s : UploadRunState) (w : ℕ) : Option UploadMode :=
  if s.settled w || s.stop then none
  else some (if s.preferRemoteUpload then .remote else .local)

/-- Effect of worker w running fallbackToLocal (lines 474-481): when the
worker is settled or the run is stopping it returns false and changes
nothing; otherwise it clears the shared preferRemoteUpload flag, schedules
a local dispatch, and returns true. -/
def fallbackToLocal (s : UploadRunState) (w : ℕ) : UploadRunState × Bool :=
  if s.settled w || s.stop then (s, false)
  else ({ s with preferRemoteUpload := false }, true)

/-- What the onload handler does after updating the counters: schedule the
next send, settle the worker promise, fall back to the local endpoint, or
fail the run with the response status. -/
inductive OnloadAction where
  | scheduleNext
  | complete
  | fallbackLocal
  | failStatus (status : ℕ)
  deriving Repr, DecidableEq

/-- Observable outcome of one xhr.onload invocation. -/
structure OnloadResult where
  totalUploaded : ℕ
  stop : Bool
  preferRemoteUpload : Bool
  action : OnloadAction
  deriving Repr, DecidableEq

/-- Translation of the xhr.onload handler of measureUpload (lines 503-528).
For a success status (200 to 399) the un-reported remainder
chunkBytes - lastLoaded is credited only when it is positive and the shared
stop flag is not set; then the worker either schedules the next send
(no stop and still before the deadline) or completes.  For a failure
status, a remote-mode worker attempts fallbackToLocal, which succeeds
exactly when the worker is not settled and the run is not stopping, and
clears the shared preferRemoteUpload flag; otherwise the handler fails the
run (setting stop) or completes if the run was already stopping.
beforeStopTime stands for performance.now() less than stopTime. -/
def uploadOnload (mode : UploadMode) (status chunkBytes lastLoaded : ℕ)
    (settled beforeStopTime : Bool) (totalUploaded : ℕ)
    (stop preferRemoteUpload : Bool) : OnloadResult :=
  if 200 ≤ status ∧ status < 400 then
    let remaining : ℤ := (chunkBytes : ℤ) - lastLoaded
    let total' := if 0 < remaining ∧ stop = false
      then totalUploaded + (chunkBytes - lastLoaded) else totalUploaded
    if stop = false ∧ beforeStopTime = true
      then ⟨total', stop, preferRemoteUpload, .scheduleNext⟩
      else ⟨total', stop, preferRemoteUpload, .complete⟩
  else if mode = .remote ∧ (settled || stop) = false then
    ⟨totalUploaded, stop, false, .fallbackLocal⟩
  else if stop = false then
    ⟨totalUploaded, true, preferRemoteUpload, .failStatus status⟩
  else
    ⟨totalUploaded, stop, preferRemoteUpload, .complete⟩

/-! ## Local download endpoint

Two GET handlers for the /api/download route appear in the repository: the
full one in src/unnamed/part_000 (lines 81-169, with a continuous mode and
a chunk parameter) and the one at src/app/api/download/route.ts (lines
1-36, with a single toInt helper).  Both are modelled.  Query-parameter
strings are parsed with the Number function, modelled here on the decimal
natural numerals the engine actually sends (any other string maps to NaN,
except the empty string which maps to 0 as in JavaScript). -/

/-- Decimal value of a character list, or none if any character is not a
digit; an empty list yields 0, as the Number function does on the empty
string. -/
def decimalDigits? : List Char → Option ℕ
  | [] => some 0
  | c :: cs =>
    if '0' ≤ c ∧ c ≤ '9' then
      match decimalDigits? cs with
      | some n => some ((c.toNat - 48) * 10 ^ cs.length + n)
      | none => none
    else none

/-- Number(s) for a query-parameter string: the empty string is 0, a string
of decimal digits is its value, anything else is NaN in this model (the
engine only ever sends decimal natural numerals in these parameters). -/
def jsStringToNumber (s : String) : JSNum :=
  match decimalDigits? s.data with
  | some n => .num n
  | none => .nan

/-- Translation of parsePositiveInt (src/unnamed/part_000, lines 97-102):
null for an absent or falsy string, for a non-finite parse and for a
non-positive parse, otherwise Math.floor of the parsed value (which can be
0 when the value lies strictly between 0 and 1). -/
def parsePositiveInt (value : Option String) : Option ℕ :=
  match value with
  | none => none
  | some s =>
    if s = "" then none
    else
      match jsStringToNumber s with
      | .num q => if q ≤ 0 then none else some (Int.toNat ⌊q⌋)
      | _ => none

/-- Translation of clampChunkSize (src/unnamed/part_000, lines 92-95):
the 64 KiB default for null, 0 or non-finite sizes, otherwise the size
clamped between 16 KiB and 4 MiB. -/
def clampChunkSize (size : Option ℕ) : ℕ :=
  match size with
  | none => 64 * 1024
  | some n => if n = 0 then 64 * 1024 else min (max n (16 * 1024)) (4 * 1024 * 1024)

/-- Body stream of a download response: a bounded random stream of
totalBytes bytes served in chunkSize chunks, or the continuous stream. -/
inductive DownloadStream where
  | bounded (totalBytes chunkSize : ℕ)
  | continuous (chunkSize : ℕ)
  deriving Repr, DecidableEq

/-- Response of the download route: the optional Content-Length header and
the body stream. -/
structure DownloadResponse where
  contentLength : Option ℕ
  stream : DownloadStream
  deriving Repr, DecidableEq

/-- Total byte count chosen by the GET handler of src/unnamed/part_000
(lines 140-153): the 5 MiB default when the bytes parameter is absent,
the parsed value when it is a truthy positive integer, null (continuous
mode) when the raw string is exactly the literal 0, and the 5 MiB default
otherwise. -/
def routeTotalBytes (rawBytes : Option String) : Option ℕ :=
  match rawBytes with
  | none => some (5 * 1024 * 1024)
  | some raw =>
    match parsePositiveInt (some raw) with
    | some p =>
      if p ≠ 0 then some p
      else if raw = "0" then none
      else some (5 * 1024 * 1024)
    | none =>
      if raw = "0" then none
      else some (5 * 1024 * 1024)

/-- Translation of the GET handler of src/unnamed/part_000 (lines 136-169):
continuous stream with no Content-Length header when totalBytes is null,
bounded stream with Content-Length totalBytes otherwise. -/
def downloadGET (rawBytes rawChunk : Option String) : DownloadResponse :=
  let chunkSize := clampChunkSize (parsePositiveInt rawChunk)
  match routeTotalBytes rawBytes with
  | some total => { contentLength := some total, stream := .bounded total chunkSize }
  | none => { contentLength := none, stream := .continuous chunkSize }

/-- One pull of the fixed stream (makeFixedStream, lines 104-118): close when
sent has reached totalBytes, otherwise enqueue min(chunkSize, remaining)
bytes and advance sent.  The result is the enqueued size and the new sent. -/
def fixedPull (totalBytes chunkSize sent : ℕ) : Option (ℕ × ℕ) :=
  if totalBytes ≤ sent then none
  else
    let size := min chunkSize (totalBytes - sent)
    some (size, sent + size)

/-- One pull of the continuous stream (makeContinuousStream, lines 120-134):
close when the client has cancelled, otherwise enqueue chunkSize bytes;
there is no other way for this stream to end. -/
def continuousPull (cancelled : Bool) (chunkSize : ℕ) : Option ℕ :=
  if cancelled then none else some chunkSize

/-- Chunk sizes delivered by the fixed stream, derived from fixedPull by
iterating it to completion.  The fuel argument is a termination bound only:
remaining shrinks by at least one per pull whenever chunkSize is positive. -/
def fixedStreamChunksAux (chunkSize : ℕ) : ℕ → ℕ → List ℕ
  | 0, _ => []
  | _, 0 => []
  | fuel + 1, r + 1 =>
    min chunkSize (r + 1) :: fixedStreamChunksAux chunkSize fuel (r + 1 - min chunkSize (r + 1))

/-- Full chunk list of the fixed stream for a bounded download. -/
def fixedStreamChunks (chunkSize totalBytes : ℕ) : List ℕ :=
  fixedStreamChunksAux chunkSize totalBytes totalBytes

/-- Translation of toInt in src/app/api/download/route.ts (lines 5-8): the
5 MiB default for an absent or falsy string, a non-finite parse or a
non-positive value, otherwise Math.floor of the parsed value. -/
def toInt (v : Option String) : ℕ :=
  match v with
  | none => 5 * 1024 * 1024
  | some s =>
    if s = "" then 5 * 1024 * 1024
    else
      match jsStringToNumber s with
      | .num q => if 0 < q then Int.toNat ⌊q⌋ else 5 * 1024 * 1024
      | _ => 5 * 1024 * 1024

/-- Translation of the GET handler of src/app/api/download/route.ts (lines
25-36): always a bounded stream of toInt(bytes) bytes in 64 KiB chunks,
with Content-Length set to that byte count. -/
def downloadGETlegacy (rawBytes : Option String) : DownloadResponse :=
  let bytes := toInt rawBytes
  { contentLength := some bytes, stream := .bounded bytes (64 * 1024) }

/-! ## Orchestrator state and the startTest callbacks
(src/app/page.tsx, lines 89-109, 725-756, 898-976)

The React state mutated by startTest and its callbacks is collected into
one record; each callback is translated as a state transformer carrying
the run token it captured at the start of its run.  A callback fires
against whatever the current run counter is, and every one of them begins
with the guard runRef.current equal to the captured runId. -/

/-- Phase enumeration of the page. -/
inductive Phase where
  | idle
  | ping
  | download
  | upload
  | complete
  | error
  deriving Repr, DecidableEq

/-- Results record rendered by the page. -/
structure TestResults where
  ping : Option ℝ
  jitter : Option ℝ
  download : Option ℝ
  upload : Option ℝ

/-- Per-phase progress fractions. -/
structure PhaseProgress where
  ping : ℝ
  download : ℝ
  upload : ℝ

/-- Observable React state of the page: phase, running flag, results,
progress, live gauge value, gauge scale, error message, run duration and
the current value of the runRef counter. -/
structure UiState where
  phase : Phase
  running : Bool
  results : TestResults
  progress : PhaseProgress
  liveValue : ℝ
  speedScale : ℝ
  error : Option String
  durationMs : ℝ
  runCounter : ℕ

/-- Gauge scale steps (line 89). -/
def SPEED_SCALES : List ℝ := [25, 50, 75, 100, 150, 200, 300, 500, 750, 1000, 1500, 2000]

/-- For-loop of adjustSpeedScale: the first listed step that value fits
under wins, otherwise value is rounded up to a multiple of 200. -/
noncomputable def speedScaleLoop (current value : ℝ) : List ℝ → ℝ
  | [] => max ((⌈value / 200⌉ : ℝ) * 200) current
  | step :: rest =>
    if value ≤ step then max step current else speedScaleLoop current value rest

/-- Translation of adjustSpeedScale (lines 100-109); the Number.isFinite
guard of the source is vacuous over the reals. -/
noncomputable def adjustSpeedScale (current value : ℝ) : ℝ :=
  if value ≤ current * (9 / 10) then current
  else speedScaleLoop current value SPEED_SCALES

/-- Ping onProgress callback installed by startTest (lines 917-921). -/
noncomputable def pingOnProgress (token : ℕ) (sample : ℝ) (completed total : ℕ)
    (s : UiState) : UiState :=
  if s.runCounter ≠ token then s
  else
    { s with
      progress := { s.progress with ping := (completed : ℝ) / (total : ℝ) }
      liveValue := sample }

/-- Completion step after measurePing resolves (lines 923-928): record
average and jitter, finish the ping progress bar, show the average and
move to the download phase. -/
noncomputable def afterPing (token : ℕ) (res : PingResult) (s : UiState) : UiState :=
  if s.runCounter ≠ token then s
  else
    { s with
      results := { s.results with ping := some res.average, jitter := some res.jitter }
      progress := { s.progress with ping := 1 }
      liveValue := res.average
      phase := .download }

/-- Download onProgress callback (lines 935-940). -/
noncomputable def downloadOnProgress (token : ℕ) (mbps fraction : ℝ) (s : UiState) : UiState :=
  if s.runCounter ≠ token then s
  else
    { s with
      liveValue := mbps
      speedScale := adjustSpeedScale s.speedScale mbps
      progress := { s.progress with download := fraction } }

/-- Completion step after measureDownload resolves (lines 942-945). -/
noncomputable def afterDownload (token : ℕ) (mbps : ℝ) (s : UiState) : UiState :=
  if s.runCounter ≠ token then s
  else
    { s with
      results := { s.results with download := some mbps }
      progress := { s.progress with download := 1 }
      liveValue := mbps
      phase := .upload }

/-- Upload onProgress callback (lines 953-958). -/
noncomputable def uploadOnProgress (token : ℕ) (mbps fraction : ℝ) (s : UiState) : UiState :=
  if s.runCounter ≠ token then s
  else
    { s with
      liveValue := mbps
      speedScale := adjustSpeedScale s.speedScale mbps
      progress := { s.progress with upload := fraction } }

/-- Completion step after measureUpload resolves (lines 960-965): record the
upload result, move to the complete phase and record the run duration. -/
noncomputable def afterUpload (token : ℕ) (mbps elapsed : ℝ) (s : UiState) : UiState :=
  if s.runCounter ≠ token then s
  else
    { s with
      results := { s.results with upload := some mbps }
      progress := { s.progress with upload := 1 }
      liveValue := mbps
      phase := .complete
      durationMs := elapsed }

/-- Catch handler of startTest (lines 966-970): record the message and move
to the error phase. -/
def catchStep (token : ℕ) (message : String) (s : UiState) : UiState :=
  if s.runCounter ≠ token then s
  else { s with error := some message, phase := .error }

/-- Finally block of startTest (lines 971-975): clear the running flag only
when the run is still the current one. -/
def finallyStep (token : ℕ) (s : UiState) : UiState :=
  if s.runCounter = token then { s with running := false } else s

/-! ## Helper lemmas -/

theorem foldl_append_drop (a : List ℝ) (rl : List (List ℝ)) :
    rl.foldl (fun acc results => acc ++ results.drop 1) a
      = a ++ (rl.map (fun results => results.drop 1)).flatten := by
  induction rl generalizing a with
  | nil => simp
  | cons r rest ih =>
    simp only [List.foldl_cons, List.map_cons, List.flatten_cons]
    rw [ih, List.append_assoc]

theorem pingFilter_eq (rl : List (List ℝ)) :
    pingFilter rl = (rl.map (fun results => results.drop 1)).flatten := by
  simp only [pingFilter]
  rw [foldl_append_drop, List.nil_append]

theorem pingFilter_length (R C : ℕ) (lat : ℕ → ℕ → ℝ) :
    (pingFilter (pingRounds R C lat)).length = R * (C - 1) := by
  rw [pingFilter_eq]
  induction R with
  | zero => simp [pingRounds]
  | succ n ih =>
    rw [pingRounds, List.range_succ] at *
    simp only [List.map_append, List.map_map, List.flatten_append] at *
    simp only [List.length_append, ih]
    simp [Nat.succ_mul]

/-- C4: in every all-successful ping run with R rounds and concurrency
C at least 2, R times C samples are issued, and exactly the first result
of each round in issue order is dropped, leaving R times (C - 1) retained
samples; a round observing latencies 50, 20, 22, 21 retains 20, 22, 21. -/
theorem ping_round_retention :
    (∀ (R C : ℕ) (lat : ℕ → ℕ → ℝ), 2 ≤ C →
      pingTotalSamples R C = R * C ∧
      (pingFilter (pingRounds R C lat)).length = R * (C - 1)) ∧
    pingFilter [[50, 20, 22, 21]] = ([20, 22, 21] : List ℝ) := by
  refine ⟨fun R C lat _ => ⟨rfl, pingFilter_length R C lat⟩, ?_⟩
  simp [pingFilter]

theorem ping_round_retention_witness :
    (2 ≤ 4) ∧
      (pingTotalSamples 6 4 = 6 * 4 ∧
        (pingFilter (pingRounds 6 4 (fun r c =>
          if r = 0 then ([50, 20, 22, 21].getD c 0 : ℝ) else 30))).length = 6 * (4 - 1)) :=
  ⟨by norm_num, ping_round_retention.1 6 4 _ (by norm_num)⟩

/-- C8: a ping run that retains zero samples returns the zero-valued result
with an empty sample list instead of dividing by zero, and with
concurrency 1 every round retains nothing, whatever the latencies. -/
theorem ping_zero_samples :
    (∀ rl : List (List ℝ), pingFilter rl = [] →
      measurePing rl = { average := 0, jitter := 0, samples := [] }) ∧
    (∀ (R : ℕ) (lat : ℕ → ℕ → ℝ), pingFilter (pingRounds R 1 lat) = []) := by
  constructor
  · intro rl h
    simp only [measurePing, h]
  · intro R lat
    rw [pingFilter_eq]
    simp [pingRounds, List.flatten_eq_nil_iff, List.range_succ]

theorem ping_zero_samples_witness :
    pingFilter [[(5 : ℝ)], [7]] = [] ∧
      measurePing [[(5 : ℝ)], [7]] = { average := 0, jitter := 0, samples := [] } :=
  ⟨by simp [pingFilter], ping_zero_samples.1 [[(5 : ℝ)], [7]] (by simp [pingFilter])⟩

theorem clampDuration_ge (durationMs : ℚ) : (1000 : ℚ) ≤ clampDuration durationMs :=
  le_max_right _ _

theorem finishThroughput_seconds_pos (totalBytes : ℕ) (rawElapsedMs duration : ℚ)
    (hd : (1000 : ℚ) ≤ duration) :
    0 < (finishThroughput totalBytes rawElapsedMs duration).seconds := by
  have h : (1000 : ℚ) ≤ max rawElapsedMs duration := le_trans hd (le_max_right _ _)
  simp only [finishThroughput]
  positivity

/-- C6: every completed result of measureDownload and measureUpload
satisfies mbps equal to bytes times 8 over 1,000,000 over seconds, where
bytes and seconds are fields of the same result. -/
theorem throughput_mbps_invariant (durationMs rawElapsedMs : ℚ) (bytes : ℕ) :
    (measureDownloadResult durationMs rawElapsedMs bytes).mbps =
      (measureDownloadResult durationMs rawElapsedMs bytes).bytes * 8 / 1000000 /
        (measureDownloadResult durationMs rawElapsedMs bytes).seconds ∧
    (measureUploadResult durationMs rawElapsedMs bytes).mbps =
      (measureUploadResult durationMs rawElapsedMs bytes).bytes * 8 / 1000000 /
        (measureUploadResult durationMs rawElapsedMs bytes).seconds := by
  have hp := finishThroughput_seconds_pos bytes rawElapsedMs (clampDuration durationMs)
    (clampDuration_ge durationMs)
  constructor <;>
    simp_all only [measureDownloadResult, measureUploadResult, finishThroughput, if_pos hp,
      if_true]

/-- C7: the effective duration of measureDownload and measureUpload is the
floor of durationMs clamped to at least 1000 milliseconds, and the
elapsedSeconds of the result is never below that effective duration in
seconds, hence never below 1. -/
theorem throughput_duration_floor (durationMs rawElapsedMs : ℚ) (bytes : ℕ) :
    clampDuration durationMs = max (⌊durationMs⌋ : ℚ) 1000 ∧
    clampDuration durationMs / 1000 ≤ (measureDownloadResult durationMs rawElapsedMs bytes).seconds ∧
    clampDuration durationMs / 1000 ≤ (measureUploadResult durationMs rawElapsedMs bytes).seconds ∧
    1 ≤ (measureDownloadResult durationMs rawElapsedMs bytes).seconds ∧
    1 ≤ (measureUploadResult durationMs rawElapsedMs bytes).seconds := by
  have hd := clampDuration_ge durationMs
  have hle : clampDuration durationMs ≤ max rawElapsedMs (clampDuration durationMs) :=
    le_max_right _ _
  have hsec : clampDuration durationMs / 1000 ≤
      max rawElapsedMs (clampDuration durationMs) / 1000 := by
    apply div_le_div_of_nonneg_right hle <;> norm_num
  have hone : (1 : ℚ) ≤ max rawElapsedMs (clampDuration durationMs) / 1000 := by
    rw [le_div_iff₀ (by norm_num : (0 : ℚ) < 1000)]
    calc (1 : ℚ) * 1000 = 1000 := by norm_num
    _ ≤ clampDuration durationMs := hd
    _ ≤ _ := hle
  exact ⟨rfl,
    by simpa [measureDownloadResult, finishThroughput] using hsec,
    by simpa [measureUploadResult, finishThroughput] using hsec,
    by simpa [measureDownloadResult, finishThroughput] using hone,
    by simpa [measureUploadResult, finishThroughput] using hone⟩

/-! ## Upload fallback sharing (C1) -/

/-- C1 counterexample: with the remote endpoint configured, no stop and no
worker settled, worker 1 would target the remote endpoint; after worker 0
runs fallbackToLocal (which succeeds), worker 1 targets the local endpoint
instead, so one worker's downgrade does change the endpoint another worker
targets for its subsequent sends. -/
theorem upload_fallback_shared_counterexample :
    scheduleNextTarget ⟨true, false, fun _ => false⟩ 1 = some .remote ∧
    (fallbackToLocal ⟨true, false, fun _ => false⟩ 0).2 = true ∧
    scheduleNextTarget (fallbackToLocal ⟨true, false, fun _ => false⟩ 0).1 1 = some .local ∧
    some UploadMode.local ≠ some UploadMode.remote :=
  ⟨rfl, rfl, rfl, by decide⟩

/-- C1 amended: the downgrade flag preferRemoteUpload is shared by all
workers of a run; after any worker's successful fallbackToLocal, every
worker (the failing one and its siblings alike) either completes or
targets the local endpoint on its next send, never the remote one. -/
theorem upload_fallback_shared (s : UploadRunState) (w w' : ℕ)
    (h : (fallbackToLocal s w).2 = true) :
    scheduleNextTarget (fallbackToLocal s w).1 w' = none ∨
      scheduleNextTarget (fallbackToLocal s w).1 w' = some .local := by
  by_cases hsw : (s.settled w || s.stop) = true
  · simp [fallbackToLocal, hsw] at h
  · simp only [fallbackToLocal, hsw, if_neg, Bool.false_eq_true, if_false]
    by_cases hsw' : (s.settled w' || s.stop) = true
    · left
      simp [scheduleNextTarget, hsw']
    · right
      simp only [scheduleNextTarget]
      rw [if_neg (by simpa using hsw')]
      simp

theorem upload_fallback_shared_witness :
    (fallbackToLocal ⟨true, false, fun _ => false⟩ 0).2 = true ∧
      (scheduleNextTarget (fallbackToLocal ⟨true, false, fun _ => false⟩ 0).1 1 = none ∨
        scheduleNextTarget (fallbackToLocal ⟨true, false, fun _ => false⟩ 0).1 1 = some .local) :=
  ⟨rfl, upload_fallback_shared ⟨true, false, fun _ => false⟩ 0 1 rfl⟩

/-! ## Upload completion credit (C3) -/

/-- C3 counterexample: a POST that completes with status 200 after the
shared stop flag was set, with no progress event delivered (lastLoaded 0
against a 524288-byte payload), contributes nothing: the uploaded total
stays 0 instead of growing by the full payload size, refuting the claim
that a successfully completed send always contributes the payload size. -/
theorem upload_credit_counterexample :
    (uploadOnload .remote 200 524288 0 false false 0 true true).totalUploaded = 0 ∧
    (0 : ℕ) ≠ 0 + (524288 - 0) := by
  exact ⟨rfl, by norm_num⟩

/-- C3 amended: when a POST completes with a success status (200 to 399)
and the progress events under-reported (lastLoaded below the payload
size), the difference is credited to the uploaded total exactly when the
shared stop flag is not yet set; once stop is set the remainder is not
credited and the total is unchanged. -/
theorem upload_completion_credit (mode : UploadMode) (status chunkBytes lastLoaded : ℕ)
    (settled beforeStopTime : Bool) (total : ℕ) (preferRemote : Bool)
    (h200 : 200 ≤ status) (h400 : status < 400) (hund : lastLoaded < chunkBytes) :
    (uploadOnload mode status chunkBytes lastLoaded settled beforeStopTime total
        false preferRemote).totalUploaded = total + (chunkBytes - lastLoaded) ∧
    (uploadOnload mode status chunkBytes lastLoaded settled beforeStopTime total
        true preferRemote).totalUploaded = total := by
  have hs : 200 ≤ status ∧ status < 400 := ⟨h200, h400⟩
  have hrem : (0 : ℤ) < (chunkBytes : ℤ) - lastLoaded := by
    omega
  constructor
  · simp only [uploadOnload, if_pos hs, hrem, and_true, if_true]
    cases beforeStopTime <;> simp
  · simp only [uploadOnload, if_pos hs]
    cases beforeStopTime <;> simp

theorem upload_completion_credit_witness :
    (200 ≤ 200 ∧ 200 < 400 ∧ 0 < 524288) ∧
      ((uploadOnload .remote 200 524288 0 false true 0 false true).totalUploaded
          = 0 + (524288 - 0) ∧
        (uploadOnload .remote 200 524288 0 false true 0 true true).totalUploaded = 0) :=
  ⟨⟨by norm_num, by norm_num, by norm_num⟩,
    upload_completion_credit .remote 200 524288 0 false true 0 true
      (by norm_num) (by norm_num) (by norm_num)⟩

/-! ## Size clamps (C10) -/

theorem clamp_eval_int (n : ℤ) (hn : n ≠ 0) (dflt lo hi : ℚ) :
    (((JSNum.num (n : ℚ)).jsFloor.orElse (.num dflt)).jsMax (.num lo)).jsMin (.num hi)
      = .num (min (max (n : ℚ) lo) hi) := by
  have hf : (⌊(n : ℚ)⌋ : ℚ) = (n : ℚ) := by rw [Int.floor_intCast]
  have ht : ((⌊(n : ℚ)⌋ : ℚ) != 0) = true := by
    rw [hf, bne_iff_ne]
    exact_mod_cast hn
  simp [JSNum.jsFloor, JSNum.orElse, JSNum.truthy, ht, hf, JSNum.jsMax, JSNum.jsMin, hn]

/-- C10 counterexample: the input -5 is non-positive, yet measureDownload
uses 16384 (the lower clamp bound), not the 262144 default, and
measureUpload uses 131072, not the 524288 default. -/
theorem size_clamp_counterexample :
    safeChunkSize (some (.num (-5))) = .num 16384 ∧
    JSNum.num 16384 ≠ .num 262144 ∧
    uploadChunkBytes (some (.num (-5))) = .num 131072 ∧
    JSNum.num 131072 ≠ .num 524288 := by
  have hcast : JSNum.num (-5) = .num (((-5 : ℤ) : ℚ)) := by norm_num
  have h5 : ((-5 : ℤ) : ℚ) = (-5 : ℚ) := by norm_num
  refine ⟨?_, ?_, ?_, ?_⟩
  · show (((JSNum.num (-5)).jsFloor.orElse (.num (256 * 1024))).jsMax
        (.num (16 * 1024))).jsMin (.num (1024 * 1024)) = .num 16384
    rw [hcast, clamp_eval_int (-5) (by norm_num), h5,
      max_eq_right (by norm_num : (-5 : ℚ) ≤ 16 * 1024),
      min_eq_left (by norm_num : (16 * 1024 : ℚ) ≤ 1024 * 1024)]
    norm_num
  · intro h
    exact absurd (JSNum.num.inj h) (by norm_num)
  · show (((JSNum.num (-5)).jsFloor.orElse (.num (512 * 1024))).jsMax
        (.num (128 * 1024))).jsMin (.num (2 * 1024 * 1024)) = .num 131072
    rw [hcast, clamp_eval_int (-5) (by norm_num), h5,
      max_eq_right (by norm_num : (-5 : ℚ) ≤ 128 * 1024),
      min_eq_left (by norm_num : (128 * 1024 : ℚ) ≤ 2 * 1024 * 1024)]
    norm_num
  · intro h
    exact absurd (JSNum.num.inj h) (by norm_num)

theorem clamp_cases (v : JSNum) (dflt lo hi : ℚ) (hlo : lo ≤ dflt)
    (hhi : dflt ≤ hi) (hrange : lo ≤ hi) :
    ∃ q : ℚ, ((v.jsFloor.orElse (.num dflt)).jsMax (.num lo)).jsMin (.num hi) = .num q ∧
      lo ≤ q ∧ q ≤ hi := by
  cases v with
  | num q =>
    by_cases hq : (⌊q⌋ : ℚ) = 0
    · refine ⟨dflt, ?_, hlo, hhi⟩
      simp [JSNum.jsFloor, JSNum.orElse, JSNum.truthy, hq, JSNum.jsMax, JSNum.jsMin,
        max_eq_left hlo, min_eq_left hhi]
    · refine ⟨min (max (⌊q⌋ : ℚ) lo) hi, ?_, ?_, ?_⟩
      · simp only [JSNum.jsFloor, JSNum.orElse, JSNum.truthy]
        rw [if_pos (by simpa [bne_iff_ne] using hq)]
        simp [JSNum.jsMax, JSNum.jsMin]
      · exact le_min (le_max_right _ _) hrange
      · exact min_le_right _ _
  | nan =>
    refine ⟨dflt, ?_, hlo, hhi⟩
    simp [JSNum.jsFloor, JSNum.orElse, JSNum.truthy, JSNum.jsMax, JSNum.jsMin,
      max_eq_left hlo, min_eq_left hhi]
  | inf =>
    refine ⟨hi, ?_, hrange, le_refl hi⟩
    simp [JSNum.jsFloor, JSNum.orElse, JSNum.truthy, JSNum.jsMax, JSNum.jsMin]
  | negInf =>
    refine ⟨lo, ?_, le_refl lo, hrange⟩
    simp [JSNum.jsFloor, JSNum.orElse, JSNum.truthy, JSNum.jsMax, JSNum.jsMin,
      min_eq_left hrange]

/-- C10 amended: for every input (including undefined, NaN and the
infinities) the download chunk size lands in the range 16384 to 1048576
and the upload payload size in the range 131072 to 2097152, so callers
cannot drive the engine outside these bounds; the defaults 262144 and
524288 are used exactly when the floored input is falsy (0 or NaN), while
negative inputs are raised to the lower bound and infinite inputs are cut
to the upper bound. -/
theorem size_clamp_range (x y : Option JSNum) :
    (∃ q : ℚ, safeChunkSize x = .num q ∧ 16 * 1024 ≤ q ∧ q ≤ 1024 * 1024) ∧
    (∃ q : ℚ, uploadChunkBytes y = .num q ∧ 128 * 1024 ≤ q ∧ q ≤ 2 * 1024 * 1024) ∧
    ((x.getD (.num 0)).jsFloor.truthy = false → safeChunkSize x = .num (256 * 1024)) ∧
    ((y.getD (.num 0)).jsFloor.truthy = false → uploadChunkBytes y = .num (512 * 1024)) := by
  refine ⟨clamp_cases _ _ _ _ (by norm_num) (by norm_num) (by norm_num),
    clamp_cases _ _ _ _ (by norm_num) (by norm_num) (by norm_num), ?_, ?_⟩
  · intro h
    simp only [safeChunkSize, JSNum.orElse, h, Bool.false_eq_true, if_false]
    cases hf : (x.getD (.num 0)).jsFloor <;>
      simp_all [JSNum.truthy, JSNum.jsMax, JSNum.jsMin] <;> norm_num
  · intro h
    simp only [uploadChunkBytes, JSNum.orElse, h, Bool.false_eq_true, if_false]
    cases hf : (y.getD (.num 0)).jsFloor <;>
      simp_all [JSNum.truthy, JSNum.jsMax, JSNum.jsMin] <;> norm_num

theorem size_clamp_range_witness :
    ((Option.some JSNum.nan).getD (.num 0)).jsFloor.truthy = false ∧
      safeChunkSize (some .nan) = .num (256 * 1024) :=
  ⟨rfl, (size_clamp_range (some .nan) none).2.2.1 rfl⟩

/-! ## Ping statistics (C5) -/

theorem foldl_add_map_sum (f : ℝ → ℝ) (l : List ℝ) (a : ℝ) :
    l.foldl (fun acc v => acc + f v) a = a + (l.map f).sum := by
  induction l generalizing a with
  | nil => simp
  | cons x xs ih => simp [ih, add_assoc]

theorem pingSum_eq_sum (l : List ℝ) : pingSum l = l.sum := by
  simpa using foldl_add_map_sum (fun v => v) l 0

theorem pingAverage_eq_mean (l : List ℝ) : pingAverage l = l.sum / l.length := by
  rw [pingAverage, pingSum_eq_sum]

theorem pingVariance_eq (l : List ℝ) :
    pingVariance l = ((l.map (fun v => (v - pingAverage l) ^ 2)).sum) / l.length := by
  rw [pingVariance, foldl_add_map_sum, zero_add]

theorem pingVariance_nonneg (l : List ℝ) : 0 ≤ pingVariance l := by
  rw [pingVariance_eq]
  apply div_nonneg
  · apply List.sum_nonneg
    intro x hx
    obtain ⟨v, _, rfl⟩ := List.mem_map.1 hx
    positivity
  · positivity

/-- C5: over the retained samples, measurePing computes the arithmetic mean
as average and the population standard deviation (square root of the mean
squared deviation) as jitter, and jitter is never negative; on the samples
10, 12 and 14 the average is 12 and the jitter is the square root of 8/3,
which lies strictly between 1.632 and 1.634 (about 1.633). -/
theorem ping_stats_spec :
    (∀ l : List ℝ, l ≠ [] →
      pingAverage l = l.sum / l.length ∧
      pingJitter l = specPopulationStdDev l ∧
      0 ≤ pingJitter l) ∧
    pingAverage [10, 12, 14] = 12 ∧
    pingJitter [10, 12, 14] = Real.sqrt (8 / 3) ∧
    (1.632 : ℝ) < pingJitter [10, 12, 14] ∧
    pingJitter [10, 12, 14] < (1.634 : ℝ) := by
  have havg : pingAverage [10, 12, 14] = (12 : ℝ) := by
    norm_num [pingAverage, pingSum, List.foldl_cons, List.foldl_nil]
  have hvar : pingVariance [10, 12, 14] = (8 / 3 : ℝ) := by
    norm_num [pingVariance, havg, List.foldl_cons, List.foldl_nil]
  have hjit : pingJitter [10, 12, 14] = Real.sqrt (8 / 3) := by
    rw [pingJitter, hvar, max_eq_left (by norm_num : (0 : ℝ) ≤ 8 / 3)]
  refine ⟨fun l _ => ⟨pingAverage_eq_mean l, ?_, Real.sqrt_nonneg _⟩, havg, hjit, ?_, ?_⟩
  · rw [pingJitter, max_eq_left (pingVariance_nonneg l), specPopulationStdDev,
      pingVariance_eq, pingAverage_eq_mean]
  · rw [hjit, show (1.632 : ℝ) = 1632 / 1000 by norm_num]
    rw [Real.lt_sqrt (by norm_num)]
    norm_num
  · rw [hjit]
    rw [Real.sqrt_lt (by norm_num) (by norm_num)]
    norm_num

theorem ping_stats_spec_witness :
    ([10, 12, 14] : List ℝ) ≠ [] ∧
      (pingAverage [10, 12, 14] = ([10, 12, 14] : List ℝ).sum / ([10, 12, 14] : List ℝ).length ∧
        pingJitter [10, 12, 14] = specPopulationStdDev [10, 12, 14] ∧
        0 ≤ pingJitter [10, 12, 14]) :=
  ⟨by simp, ping_stats_spec.1 [10, 12, 14] (by simp)⟩

/-! ## Local download endpoint semantics (C2) -/

theorem fixedStreamChunksAux_sum (chunkSize : ℕ) (hc : 0 < chunkSize) :
    ∀ fuel remaining, remaining ≤ fuel →
      (fixedStreamChunksAux chunkSize fuel remaining).sum = remaining := by
  intro fuel
  induction fuel with
  | zero =>
    intro remaining h
    have : remaining = 0 := by omega
    subst this
    simp [fixedStreamChunksAux]
  | succ n ih =>
    intro remaining h
    match remaining with
    | 0 => simp [fixedStreamChunksAux]
    | r + 1 =>
      have hm : 1 ≤ min chunkSize (r + 1) := by omega
      have hm2 : min chunkSize (r + 1) ≤ r + 1 := min_le_right _ _
      simp only [fixedStreamChunksAux, List.sum_cons]
      rw [ih (r + 1 - min chunkSize (r + 1)) (by omega)]
      omega

theorem fixedStreamChunks_sum (chunkSize totalBytes : ℕ) (hc : 0 < chunkSize) :
    (fixedStreamChunks chunkSize totalBytes).sum = totalBytes :=
  fixedStreamChunksAux_sum chunkSize hc totalBytes totalBytes le_rfl

/-- C2: evaluation of both GET handlers of the local download endpoint.
In the handler of src/unnamed/part_000, bytes equal to 0 yields the
continuous stream with no Content-Length header, whose pull enqueues a
chunk whenever the client has not cancelled and closes once it has, while
a positive integer n (here 70000) yields a bounded stream whose chunks sum
to exactly n, which closes once sent reaches n, with Content-Length n.
The handler of src/app/api/download/route.ts instead answers bytes equal
to 0 with the default bounded 5242880-byte stream and Content-Length
5242880, contradicting the claimed continuous mode. -/
theorem download_route_bytes_semantics :
    downloadGET (some "0") none =
      { contentLength := none, stream := .continuous (64 * 1024) } ∧
    continuousPull false (64 * 1024) = some (64 * 1024) ∧
    continuousPull true (64 * 1024) = none ∧
    downloadGET (some "70000") none =
      { contentLength := some 70000, stream := .bounded 70000 (64 * 1024) } ∧
    (fixedStreamChunks (64 * 1024) 70000).sum = 70000 ∧
    fixedPull 70000 (64 * 1024) 0 = some (65536, 65536) ∧
    fixedPull 70000 (64 * 1024) 65536 = some (4464, 70000) ∧
    fixedPull 70000 (64 * 1024) 70000 = none ∧
    downloadGETlegacy (some "0") =
      { contentLength := some (5 * 1024 * 1024),
        stream := .bounded (5 * 1024 * 1024) (64 * 1024) } := by
  refine ⟨by decide, by decide, by decide, by decide,
    fixedStreamChunks_sum (64 * 1024) 70000 (by norm_num), by decide, by decide, by decide,
    by decide⟩

/-! ## Stale-run callbacks (C9) -/

/-- Concrete page state used to witness the stale-run theorem: the current
run counter is 2, so a callback carrying token 1 is stale. -/
def sampleUiState : UiState :=
  { phase := .idle
    running := true
    results := { ping := none, jitter := none, download := none, upload := none }
    progress := { ping := 0, download := 0, upload := 0 }
    liveValue := 0
    speedScale := 100
    error := none
    durationMs := 0
    runCounter := 2 }

/-- C9: every callback and completion step of startTest compares its
captured run token against the current run counter first and leaves the
whole observable state (results, progress, phase, error and the rest)
unchanged when they differ, so a superseded run mutates nothing. -/
theorem stale_run_noop (token : ℕ) (s : UiState) (sample mbps fraction elapsed : ℝ)
    (completed total : ℕ) (res : PingResult) (msg : String)
    (h : s.runCounter ≠ token) :
    pingOnProgress token sample completed total s = s ∧
    afterPing token res s = s ∧
    downloadOnProgress token mbps fraction s = s ∧
    afterDownload token mbps s = s ∧
    uploadOnProgress token mbps fraction s = s ∧
    afterUpload token mbps elapsed s = s ∧
    catchStep token msg s = s ∧
    finallyStep token s = s := by
  refine ⟨?_, ?_, ?_, ?_, ?_, ?_, ?_, ?_⟩ <;>
    simp [pingOnProgress, afterPing, downloadOnProgress, afterDownload, uploadOnProgress,
      afterUpload, catchStep, finallyStep, h]

theorem stale_run_noop_witness :
    sampleUiState.runCounter ≠ 1 ∧
      (pingOnProgress 1 5 3 24 sampleUiState = sampleUiState ∧
        afterPing 1 { average := 12, jitter := 1, samples := [12] } sampleUiState
          = sampleUiState ∧
        downloadOnProgress 1 80 (1 / 2) sampleUiState = sampleUiState ∧
        afterDownload 1 80 sampleUiState = sampleUiState ∧
        uploadOnProgress 1 40 (1 / 2) sampleUiState = sampleUiState ∧
        afterUpload 1 40 34000 sampleUiState = sampleUiState ∧
        catchStep 1 "Upload request failed" sampleUiState = sampleUiState ∧
        finallyStep 1 sampleUiState = sampleUiState) :=
  ⟨by simp [sampleUiState],
    stale_run_noop 1 sampleUiState 5 80 (1 / 2) 34000 3 24
      { average := 12, jitter := 1, samples := [12] } "Upload request failed"
      (by simp [sampleUiState])⟩

end SpeedZone
